import Mathlib

/-!
Verification of the telegram_llm_bot repository: a shallow embedding of the
message-routing, intent-dispatch, storage and settings logic of
`main.py`, `database_service.py`, `gemini_service.py`, `config.py` and
`models.py`, followed by theorems settling the frozen claims.

Modelling conventions:
* Python strings are Lean `String`s; the Python string operations used by the
  code (`lower`, `in`, `strip`, `startswith`, `endswith`, slicing, `int()`,
  `float()` on the menu's decimal literals) are re-implemented structurally on
  `String.data` character lists so that every definition evaluates inside the
  kernel.  `Char.toLower` models Python `str.lower` (the repository only
  matches ASCII handles and names).
* The SQL store is a record of four row lists.  `ConversationLog.timestamp`
  (populated by `datetime.utcnow` at insert time, hence non-decreasing in
  insertion order) is modelled by a logical clock `nextTime` that strictly
  increases with each insert, so `ORDER BY timestamp DESC` is realised as list
  reversal; `users.telegram_id` carries a UNIQUE constraint in `models.py`, so
  the SQL join on it is realised by a first-match lookup.  `strftime`
  formatting of timestamps is abstracted to the timestamp value itself.
  Audit columns (`created_at` / `updated_at`) and columns never read by the
  logic under verification are omitted.
* The external LLM call (`GenerativeModel.generate_content`) and `json.loads`
  are external collaborators; they are modelled as function parameters
  (`gen : GenRequest → String`, `parseJson : String → Option IntentData`).
* Fallible store operations: the Python code wraps each operation in
  `try/except` and converts failures into `False`/`None`/`[]` returns with a
  rollback of the open transaction; a commit-level failure is injected through
  an explicit `commitOk : Bool` parameter, and the `scalar_one_or_none`
  calls (which raise on duplicate rows) are modelled by `findOneOrNone`.
-/

/-- Python truthiness of an optional string: `None` and `""` are falsy. -/
def pyTruthy : Option String → Bool
  | none => false
  | some s => !(s == "")

/-- Python `a or b` for an optional string `a` with string fallback `b`. -/
def orTruthy (a : Option String) (b : String) : String :=
  match a with
  | none => b
  | some s => if s == "" then b else s

/-- Lowercase a string (Python `str.lower`), structurally on the data. -/
def strLower (s : String) : String := ⟨s.data.map Char.toLower⟩

/-- Leading-segment test on character lists (Python `str.startswith`). -/
def leadMatch : List Char → List Char → Bool
  | [], _ => true
  | _ :: _, [] => false
  | c :: cs, d :: ds => c == d && leadMatch cs ds

/-- Contiguous-substring test on character lists (Python `needle in hay`). -/
def hasRun (needle : List Char) : List Char → Bool
  | [] => needle.isEmpty
  | c :: cs => leadMatch needle (c :: cs) || hasRun needle cs

/-- Case-insensitive substring test: Python `needle.lower() in hay.lower()`. -/
def ciContains (hay needle : String) : Bool :=
  hasRun (strLower needle).data (strLower hay).data

/-- Drop the first `n` characters (Python slice `s[n:]`). -/
def dropChars (n : Nat) (s : String) : String := ⟨s.data.drop n⟩

/-- Drop the last `n` characters (Python slice `s[:-n]`). -/
def dropRightChars (n : Nat) (s : String) : String :=
  ⟨s.data.take (s.data.length - n)⟩

/-- Strip whitespace from both ends (Python `str.strip`). -/
def stripStr (s : String) : String :=
  ⟨((s.data.dropWhile Char.isWhitespace).reverse.dropWhile Char.isWhitespace).reverse⟩

/-- Python `str.startswith`. -/
def startsWithStr (s pre : String) : Bool := leadMatch pre.data s.data

/-- Python `str.endswith`. -/
def endsWithStr (s post : String) : Bool := leadMatch post.data.reverse s.data.reverse

/-- Parse a decimal digit. -/
def digitVal (c : Char) : Option Nat :=
  if c.isDigit then some (c.toNat - '0'.toNat) else none

/-- Parse a nonempty all-digit string to a `Nat` (Python `int(...)` on the
menu values; raising is modelled by `none`). -/
def parseNat (s : String) : Option Nat :=
  if s.data.isEmpty then none
  else s.data.foldl
    (fun acc c => match acc, digitVal c with
      | some n, some d => some (n * 10 + d)
      | _, _ => none)
    (some 0)

/-- Parse the menu's decimal literals (`"0.1"`, `"1.0"`, ...) to a rational
(Python `float(...)` on those inputs; raising is modelled by `none`). -/
def parseDecimalQ (s : String) : Option ℚ :=
  match s.data.splitOn '.' with
  | [a] => (parseNat ⟨a⟩).map (fun n => (n : ℚ))
  | [a, b] =>
      match parseNat ⟨a⟩, parseNat ⟨b⟩ with
      | some x, some y => some ((x : ℚ) + (y : ℚ) / ((10 : ℚ) ^ b.length))
      | _, _ => none
  | _ => none

/-- Render a natural number in decimal (used for the abstracted timestamp). -/
def natToStr (n : Nat) : String := ⟨Nat.toDigits 10 n⟩

/-- Startup configuration (`config.py`): the fields read by the logic under
verification, with the `os.getenv` fallback defaults. -/
structure BotConfig where
  botUsername : String
  geminiModel : String
  defaultTemperature : ℚ
  defaultTone : String
  contextMessagesCount : Nat
deriving Repr, DecidableEq

/-- The `config.py` defaults: `GEMINI_MODEL=gemini-2.5-flash`,
`DEFAULT_TEMPERATURE=0.7`, `DEFAULT_TONE=friendly`,
`CONTEXT_MESSAGES_COUNT=7` (`BOT_USERNAME` has no meaningful default). -/
def defaultConfig : BotConfig :=
  { botUsername := ""
    geminiModel := "gemini-2.5-flash"
    defaultTemperature := 0.7
    defaultTone := "friendly"
    contextMessagesCount := 7 }

/-- Row of the `users` table (`models.py`, class `User`). -/
structure UserRow where
  id : Nat
  telegramId : Int
  username : Option String
  firstName : Option String
  lastName : Option String
deriving Repr, DecidableEq

/-- Row of the `user_info` table (`models.py`, class `UserInfo`). -/
structure UserInfoRow where
  userId : Nat
  key : String
  value : String
deriving Repr, DecidableEq

/-- Row of the `group_settings` table (`models.py`, class `GroupSettings`). -/
structure GroupSettingsRow where
  groupId : Int
  geminiModel : String
  temperature : ℚ
  tone : String
  contextMessagesCount : Nat
  isActive : Bool
deriving Repr, DecidableEq

/-- Row of the `conversation_logs` table (`models.py`, class
`ConversationLog`). -/
structure LogRow where
  groupId : Int
  userId : Int
  messageId : Int
  messageText : String
  messageType : String
  timestamp : Nat
  isBotMessage : Bool
  isReply : Bool
  replyToMessageId : Option Int
deriving Repr, DecidableEq

/-- The relational store: the four tables plus the id/clock generators. -/
structure DB where
  users : List UserRow
  userInfo : List UserInfoRow
  groupSettings : List GroupSettingsRow
  log : List LogRow
  nextUserId : Nat
  nextTime : Nat
deriving Repr, DecidableEq

/-- The freshly initialised store (`Base.metadata.create_all`). -/
def DB.emptyDB : DB :=
  { users := [], userInfo := [], groupSettings := [], log := [],
    nextUserId := 0, nextTime := 0 }

/-- SQLAlchemy `scalar_one_or_none`: `some none` when no row matches,
`some (some r)` for a unique match, `none` models the
`MultipleResultsFound` exception. -/
def findOneOrNone (p : α → Bool) (l : List α) : Option (Option α) :=
  match l.filter p with
  | [] => some none
  | [a] => some (some a)
  | _ :: _ :: _ => none

/-- Profile-field refresh of `get_or_create_user`: a provided truthy value
replaces the stored one, anything else keeps it. -/
def updField (old new : Option String) : Option String :=
  match new with
  | none => old
  | some s => if s == "" then old else some s

/-- `DatabaseService.get_or_create_user`: look the user up by `telegram_id`
(unique), refresh provided profile fields, or insert a fresh row.  `none`
models the uncaught `MultipleResultsFound` exception. -/
def getOrCreateUser (db : DB) (tid : Int)
    (username firstName lastName : Option String) : Option (DB × UserRow) :=
  match findOneOrNone (fun u => u.telegramId == tid) db.users with
  | none => none
  | some (some u) =>
      let u' : UserRow :=
        { u with username := updField u.username username
                 firstName := updField u.firstName firstName
                 lastName := updField u.lastName lastName }
      some ({ db with users :=
                db.users.map (fun v => if v.telegramId == tid then u' else v) },
            u')
  | some none =>
      let u : UserRow :=
        { id := db.nextUserId, telegramId := tid, username := username,
          firstName := firstName, lastName := lastName }
      some ({ db with users := db.users ++ [u],
                      nextUserId := db.nextUserId + 1 }, u)

/-- In-place value update of the matching `(user.id, key)` row
(`existing_info.value = value`). -/
def updFactRow (userId : Nat) (k v : String) (i : UserInfoRow) : UserInfoRow :=
  if i.userId == userId && i.key == k then { i with value := v } else i

/-- Second half of `DatabaseService.save_user_info`: find the existing
`(user.id, key)` row, update its value in place, or insert a fresh row. -/
def saveUserInfoFacts (db : DB) (userId : Nat) (k v : String) : Option DB :=
  match findOneOrNone (fun i => i.userId == userId && i.key == k) db.userInfo with
  | none => none
  | some (some _) =>
      some { db with userInfo := db.userInfo.map (updFactRow userId k v) }
  | some none =>
      some { db with userInfo :=
              db.userInfo ++ [{ userId := userId, key := k, value := v }] }

/-- Body of `DatabaseService.save_user_info` (inside its `try`). -/
def saveUserInfoRun (db : DB) (uid : Int) (k v : String) : Option DB :=
  match findOneOrNone (fun u => u.telegramId == uid) db.users with
  | none => none
  | some (some u) => saveUserInfoFacts db u.id k v
  | some none =>
      match getOrCreateUser db uid none none none with
      | none => none
      | some (db1, u) => saveUserInfoFacts db1 u.id k v

/-- `DatabaseService.save_user_info`: any exception (including an injected
commit failure, `commitOk = false`) rolls the transaction back and yields
`False`; otherwise the upsert commits and yields `True`. -/
def saveUserInfo (commitOk : Bool) (db : DB) (uid : Int) (k v : String) :
    DB × Bool :=
  if commitOk then
    match saveUserInfoRun db uid k v with
    | some db' => (db', true)
    | none => (db, false)
  else (db, false)

/-- `DatabaseService.get_user_info`: resolve the user by `telegram_id`, then
the `(user.id, key)` row; every failure path yields `None`. -/
def getUserInfo (db : DB) (uid : Int) (k : String) : Option UserInfoRow :=
  match findOneOrNone (fun u => u.telegramId == uid) db.users with
  | some (some u) =>
      match findOneOrNone (fun i => i.userId == u.id && i.key == k) db.userInfo with
      | some r => r
      | none => none
  | _ => none

/-- `DatabaseService.get_group_settings`: fetch the unique row for the group,
creating one from the startup-config defaults when absent. -/
def getGroupSettings (cfg : BotConfig) (db : DB) (g : Int) :
    DB × GroupSettingsRow :=
  match db.groupSettings.find? (fun s => s.groupId == g) with
  | some s => (db, s)
  | none =>
      let s : GroupSettingsRow :=
        { groupId := g, geminiModel := cfg.geminiModel,
          temperature := cfg.defaultTemperature, tone := cfg.defaultTone,
          contextMessagesCount := cfg.contextMessagesCount, isActive := true }
      ({ db with groupSettings := db.groupSettings ++ [s] }, s)

/-- The keyword arguments accepted by `update_group_settings` as used by the
settings menu: at most one of the four mutable fields per call. -/
structure SettingsUpdate where
  geminiModel : Option String
  temperature : Option ℚ
  tone : Option String
  contextMessagesCount : Option Nat
deriving Repr, DecidableEq

/-- Apply the provided keyword arguments to a settings row (`setattr` loop of
`update_group_settings`). -/
def applySettingsKwargs (s : GroupSettingsRow) (u : SettingsUpdate) :
    GroupSettingsRow :=
  { s with geminiModel := u.geminiModel.getD s.geminiModel
           temperature := u.temperature.getD s.temperature
           tone := u.tone.getD s.tone
           contextMessagesCount :=
             u.contextMessagesCount.getD s.contextMessagesCount }

/-- `DatabaseService.update_group_settings`: get-or-create the row, set the
provided fields, commit, report success. -/
def updateGroupSettings (cfg : BotConfig) (db : DB) (g : Int)
    (u : SettingsUpdate) : DB × Bool :=
  let r := getGroupSettings cfg db g
  let s' := applySettingsKwargs r.2 u
  ({ r.1 with groupSettings :=
      r.1.groupSettings.map (fun t => if t.groupId == g then s' else t) },
   true)

/-- `TelegramBot._handle_setting_update` after callback-data parsing: build
the single-field update dictionary and apply it.  A `float()`/`int()` parse
failure raises, which the handler turns into an error reply without
updating (`(db, false)`). -/
def handleSettingUpdate (cfg : BotConfig) (db : DB) (g : Int)
    (settingType settingValue : String) : DB × Bool :=
  if settingType == "model" then
    updateGroupSettings cfg db g ⟨some settingValue, none, none, none⟩
  else if settingType == "temperature" then
    match parseDecimalQ settingValue with
    | some q => updateGroupSettings cfg db g ⟨none, some q, none, none⟩
    | none => (db, false)
  else if settingType == "tone" then
    updateGroupSettings cfg db g ⟨none, none, some settingValue, none⟩
  else if settingType == "context" then
    match parseNat settingValue with
    | some n => updateGroupSettings cfg db g ⟨none, none, none, some n⟩
    | none => (db, false)
  else
    updateGroupSettings cfg db g ⟨none, none, none, none⟩

/-- `DatabaseService.log_conversation`: append a row stamped with the current
logical clock (`datetime.utcnow` at insert time). -/
def logConversation (db : DB) (g uid mid : Int) (text : String)
    (isBot isReply : Bool) (replyTo : Option Int) : DB × Bool :=
  let row : LogRow :=
    { groupId := g, userId := uid, messageId := mid, messageText := text,
      messageType := "text", timestamp := db.nextTime, isBotMessage := isBot,
      isReply := isReply, replyToMessageId := replyTo }
  ({ db with log := db.log ++ [row], nextTime := db.nextTime + 1 }, true)

/-- The dictionary built per row by `get_recent_messages`. -/
structure MsgDict where
  messageId : Int
  userId : Int
  username : String
  messageText : String
  timestamp : Nat
  isBotMessage : Bool
  isReply : Bool
deriving Repr, DecidableEq

/-- Display name: `user.username or user.first_name or 'Unknown'`. -/
def displayName (u : UserRow) : String :=
  orTruthy u.username (orTruthy u.firstName "Unknown")

/-- Dictionary for one joined `(ConversationLog, User)` row. -/
def rowToDict (ru : LogRow × UserRow) : MsgDict :=
  { messageId := ru.1.messageId, userId := ru.1.userId,
    username := displayName ru.2, messageText := ru.1.messageText,
    timestamp := ru.1.timestamp, isBotMessage := ru.1.isBotMessage,
    isReply := ru.1.isReply }

/-- The SQL of `get_recent_messages` before ordering: the group's log rows
inner-joined with `users` on `ConversationLog.user_id == User.telegram_id`
(a first-match lookup, since `telegram_id` is UNIQUE).  A log row whose
sender has no `users` row produces nothing. -/
def joinRows (db : DB) (g : Int) : List (LogRow × UserRow) :=
  (db.log.filter (fun r => r.groupId == g)).filterMap
    (fun r => (db.users.find? (fun u => u.telegramId == r.userId)).map
      (fun u => (r, u)))

/-- `DatabaseService.get_recent_messages`: order the joined rows by
`timestamp DESC` (list reversal, as timestamps strictly increase along the
log), apply `LIMIT`, build the dictionaries, and return them reversed into
chronological (oldest-first) order. -/
def getRecentMessages (db : DB) (g : Int) (limit : Nat) : List MsgDict :=
  (((joinRows db g).reverse.take limit).map rowToDict).reverse

/-- A generation request as issued by `GeminiService._generate_response`:
prompt plus the `GenerationConfig` parameters. -/
structure GenRequest where
  prompt : String
  temperature : ℚ
  topP : ℚ
  topK : Nat
  maxOutputTokens : Nat
deriving Repr, DecidableEq

/-- Build the request with the fixed `top_p=0.8, top_k=40,
max_output_tokens=2048` generation configuration. -/
def mkGenRequest (prompt : String) (t : ℚ) : GenRequest :=
  { prompt := prompt, temperature := t, topP := 0.8, topK := 40,
    maxOutputTokens := 2048 }

/-- One line of `GeminiService._build_context_string`. -/
def contextLine (m : MsgDict) : String :=
  "[" ++ natToStr m.timestamp ++ "] " ++ m.username ++ ": " ++ m.messageText

/-- Join strings with a separator (Python `sep.join`). -/
def joinWith (sep : String) : List String → String
  | [] => ""
  | [s] => s
  | s :: rest => s ++ sep ++ joinWith sep rest

/-- `GeminiService._build_context_string`: the last 7 entries, skipping
empty-text ones, one `[timestamp] username: text` line each. -/
def buildContextString (ctx : List MsgDict) : String :=
  if ctx.isEmpty then "No recent context available."
  else
    let recent := ctx.drop (ctx.length - 7)
    let lines := (recent.filter (fun m => !(m.messageText == ""))).map contextLine
    if lines.isEmpty then "No recent context available."
    else joinWith "\n" lines

/-- The intent-analysis prompt of `GeminiService.analyze_intent`. -/
def intentPrompt (message : String) (contextStr : String) : String :=
  "\nAnalyze this message to understand the user\x27s intent. Based on the context and message, determine what the user wants to do.\n\nContext from recent messages:\n"
  ++ contextStr
  ++ "\n\nCurrent message: \"" ++ message ++ "\"\n\n"
  ++ "Please analyze and respond with a JSON object containing:\n1. \"intent\": one of [\"save_info\", \"retrieve_info\", \"summarize\", \"conversation\"]\n2. If intent is \"save_info\":\n   - \"key\": the type of information being saved (e.g., \"facebook_link\", \"bank_account\", \"phone_number\")\n   - \"value\": the actual information to save\n3. If intent is \"retrieve_info\":\n   - \"key\": the type of information being requested\n   - \"target_username\": the username of the person whose info is being requested (without @)\n4. If intent is \"summarize\":\n   - \"message_count\": number of messages to summarize (default 20)\n5. If intent is \"conversation\":\n   - \"response_type\": \"general\" (for normal conversation)\n\nExamples:\n- \"save my phone number 123-456-7890\" → \x7b\"intent\": \"save_info\", \"key\": \"phone_number\", \"value\": \"123-456-7890\"\x7d\n- \"what\x27s @john\x27s email?\" → \x7b\"intent\": \"retrieve_info\", \"key\": \"email\", \"target_username\": \"john\"\x7d\n- \"summarize the last 10 messages\" → \x7b\"intent\": \"summarize\", \"message_count\": 10\x7d\n- \"how are you?\" → \x7b\"intent\": \"conversation\", \"response_type\": \"general\"\x7d\n\nResponse format: JSON only, no additional text.\n"

/-- The structured classification result read by the dispatcher: the fields
the handlers extract from the parsed JSON dictionary. -/
structure IntentData where
  intent : Option String
  key : Option String
  value : Option String
  targetUsername : Option String
  messageCount : Option Nat
  responseType : Option String
deriving Repr, DecidableEq

/-- The fallback structure returned on any classification failure. -/
def conversationFallback : IntentData :=
  { intent := some "conversation", key := none, value := none,
    targetUsername := none, messageCount := none,
    responseType := some "general" }

/-- Code-fence cleanup of `analyze_intent`: strip, drop a leading
` ```json ` marker (7 characters) and a trailing ` ``` ` marker
(3 characters), strip again. -/
def stripCodeFences (s : String) : String :=
  let c := stripStr s
  let c := if startsWithStr c "```json" then dropChars 7 c else c
  let c := if endsWithStr c "```" then dropRightChars 3 c else c
  stripStr c

/-- The single generation request issued by `analyze_intent`: the intent
prompt at the hard-coded temperature `0.3`, regardless of the
caller-supplied `temperature` and `tone` arguments. -/
def analyzeIntentRequest (message : String) (ctx : List MsgDict)
    (temperature : ℚ) (tone : String) : GenRequest :=
  mkGenRequest (intentPrompt message (buildContextString ctx)) 0.3

/-- `GeminiService.analyze_intent`: issue the classification request, strip
fences, parse; any parse failure produces the conversation fallback. -/
def analyzeIntent (gen : GenRequest → String)
    (parseJson : String → Option IntentData) (message : String)
    (ctx : List MsgDict) (temperature : ℚ) (tone : String) : IntentData :=
  let resp := gen (analyzeIntentRequest message ctx temperature tone)
  match parseJson (stripCodeFences resp) with
  | some d => d
  | none => conversationFallback

/-- Clarification reply of `_handle_save_info` when key or value is missing. -/
def saveClarifyMsg : String :=
  "Tôi không hiểu thông tin nào bạn muốn tôi lưu. Vui lòng nói cụ thể hơn."

/-- Confirmation reply of `_handle_save_info`, echoing key and value. -/
def saveConfirmMsg (k v : String) : String :=
  "✅ Tôi đã lưu " ++ k ++ " của bạn: " ++ v

/-- Apology reply of `_handle_save_info`'s `except` branch. -/
def saveErrorMsg : String :=
  "Xin lỗi, tôi không thể lưu thông tin đó. Vui lòng thử lại."

/-- `TelegramBot._handle_save_info`: clarify when `key`/`value` is falsy,
otherwise save (ignoring the returned success flag) and confirm. -/
def handleSaveInfo (commitOk : Bool) (db : DB) (it : IntentData)
    (uid : Int) : DB × String :=
  if pyTruthy it.key && pyTruthy it.value then
    let k := it.key.getD ""
    let v := it.value.getD ""
    let r := saveUserInfo commitOk db uid k v
    (r.1, saveConfirmMsg k v)
  else (db, saveClarifyMsg)

/-- Canned reply of `_handle_summarize` when no messages come back. -/
def summarizeEmptyMsg : String := "Không có tin nhắn gần đây nào để tóm tắt."

/-- Header wrapping of `_handle_summarize`. -/
def summarizeHeader (summary : String) : String :=
  "📝 **Tóm tắt cuộc trò chuyện:**\n\n" ++ summary

/-- The message count read by `_handle_summarize`:
`intent_analysis.get("message_count", 20)`. -/
def summarizeCount (it : IntentData) : Nat := it.messageCount.getD 20

/-- `TelegramBot._handle_summarize`: fetch the recent messages, return the
canned reply when none, otherwise wrap the Gateway summary.  The boolean
records whether the Gateway's summarize operation was invoked. -/
def handleSummarize (db : DB) (summarizer : List MsgDict → String)
    (it : IntentData) (chatId : Int) : String × Bool :=
  let msgs := getRecentMessages db chatId (summarizeCount it)
  if msgs.isEmpty then (summarizeEmptyMsg, false)
  else (summarizeHeader (summarizer msgs), true)

/-- Telegram chat kinds distinguished by `handle_message`. -/
inductive ChatKind where
  | groupChat
  | supergroupChat
  | privateChat
deriving Repr, DecidableEq

/-- Message entities inspected by `_should_respond_to_message`: a `mention`
carries the text slice `message.text[offset : offset+length]`, a
`text_mention` carries the referenced user id. -/
inductive MsgEntity where
  | mentionEnt (text : String)
  | textMentionEnt (userId : Int)
  | otherEnt
deriving Repr, DecidableEq

/-- An inbound message event: the fields of `Update` read by the router. -/
structure MsgIn where
  chatKind : ChatKind
  chatId : Int
  senderId : Int
  messageId : Int
  text : String
  entities : List MsgEntity
  replyToMessageId : Option Int
  replyToSenderId : Option Int
deriving Repr, DecidableEq

/-- The bot's own identity (`context.bot` / `get_me`). -/
structure BotInfo where
  id : Int
  firstName : String
deriving Repr, DecidableEq

/-- One entity check of the mention loop in `_should_respond_to_message`. -/
def entityHit (cfg : BotConfig) (bot : BotInfo) : MsgEntity → Bool
  | .mentionEnt s => s == "@" ++ cfg.botUsername
  | .textMentionEnt uid => uid == bot.id
  | .otherEnt => false

/-- Reply-linkage check: the message replies to a message whose author is the
bot. -/
def replyToBot (bot : BotInfo) (m : MsgIn) : Bool :=
  match m.replyToSenderId with
  | some uid => uid == bot.id
  | none => false

/-- `TelegramBot._should_respond_to_message`: mention entities, then the
case-insensitive handle substring (guarded by a truthy configured handle),
then reply linkage, then the case-insensitive display-name substring
(guarded by a truthy first name). -/
def shouldRespond (cfg : BotConfig) (bot : BotInfo) (m : MsgIn) : Bool :=
  if m.entities.any (entityHit cfg bot) then true
  else if !(cfg.botUsername == "") && ciContains m.text cfg.botUsername then true
  else if replyToBot bot m then true
  else if !(bot.firstName == "") && ciContains m.text bot.firstName then true
  else false

/-- Group-or-supergroup test of `handle_message`. -/
def isGroupKind (k : ChatKind) : Bool :=
  k == ChatKind.groupChat || k == ChatKind.supergroupChat

/-- Whether the bot processes the message with AI: group chats consult
`_should_respond_to_message`; `_handle_private_message` answers every
private message unconditionally. -/
def respondDecision (cfg : BotConfig) (bot : BotInfo) (m : MsgIn) : Bool :=
  if isGroupKind m.chatKind then shouldRespond cfg bot m else true

/-- The stateful front of `_handle_group_message` up to the context fetch:
ensure the sender exists, log the incoming message, and when
`_should_respond_to_message` fires, fetch the context window with
`limit = config.context_messages_count`.  The AI call itself is modelled
separately (`analyzeIntent`, `effectiveParams`, the handlers).  This is the
step after the incoming message has been logged. -/
def handleGroupMessageAfterLog (cfg : BotConfig) (bot : BotInfo) (db2 : DB)
    (m : MsgIn) : DB × Option (List MsgDict) :=
  if shouldRespond cfg bot m then
    (db2, some (getRecentMessages db2 m.chatId cfg.contextMessagesCount))
  else (db2, none)

/-- The stateful front of `_handle_group_message`: ensure the sender exists,
log the incoming message, then decide and fetch as above. -/
def handleGroupMessage (cfg : BotConfig) (bot : BotInfo) (db : DB)
    (m : MsgIn) : DB × Option (List MsgDict) :=
  match getOrCreateUser db m.senderId none none none with
  | none => (db, none)
  | some (db1, _) =>
      handleGroupMessageAfterLog cfg bot
        (logConversation db1 m.chatId m.senderId m.messageId m.text
          false m.replyToMessageId.isSome m.replyToMessageId).1 m

/-- The generation parameters in effect for the next message of a group. -/
structure EffectiveParams where
  modelName : String
  contextLimit : Nat
  temperature : ℚ
  tone : String
deriving Repr, DecidableEq

/-- The parameters actually used when the next group message is processed:
`GeminiService.model` is bound once in `_initialize_gemini` from
`config.gemini_model`; the context fetch in `_handle_group_message` uses
`config.context_messages_count`; only temperature and tone are read from
the group's settings row by `_process_with_ai`. -/
def effectiveParams (cfg : BotConfig) (db : DB) (g : Int) : EffectiveParams :=
  let s := (getGroupSettings cfg db g).2
  { modelName := cfg.geminiModel
    contextLimit := cfg.contextMessagesCount
    temperature := s.temperature
    tone := s.tone }

/-! ### General lemmas about the embedded operations -/

theorem reverse_take_reverse_eq_drop (l : List α) (n : Nat) :
    (l.reverse.take n).reverse = l.drop (l.length - n) := by
  have h := List.rtake_eq_reverse_take_reverse (l := l) (n := n)
  simpa [List.rtake] using h.symm

theorem getRecentMessages_eq_drop (db : DB) (g : Int) (n : Nat) :
    getRecentMessages db g n =
      ((joinRows db g).map rowToDict).drop ((joinRows db g).length - n) := by
  unfold getRecentMessages
  rw [← List.map_reverse, reverse_take_reverse_eq_drop, List.map_drop]

theorem getRecentMessages_length (db : DB) (g : Int) (n : Nat) :
    (getRecentMessages db g n).length = min n (joinRows db g).length := by
  rw [getRecentMessages_eq_drop]
  simp [List.length_drop]
  omega

theorem saveConfirmMsg_ne_saveErrorMsg (k v : String) :
    saveConfirmMsg k v ≠ saveErrorMsg := by
  intro h
  have h2 := congrArg String.data h
  simp [saveConfirmMsg, saveErrorMsg] at h2

/-! ### Claim C2 -/

/-- Config for the C2 scenario: the startup defaults with a configured
handle. -/
def cfgC2 : BotConfig := { defaultConfig with botUsername := "helper_bot" }

/-- Store state after the admin sets the group-1 model to
`gemini-2.5-pro` through the settings menu. -/
def dbC2a : DB := (handleSettingUpdate cfgC2 DB.emptyDB 1 "model" "gemini-2.5-pro").1

/-- Store state after the admin additionally sets the group-1 context-window
size to 3. -/
def dbC2b : DB := (handleSettingUpdate cfgC2 dbC2a 1 "context" "3").1

/-- C2: after admin updates to the model choice and the context-window size
of group 1 succeed and are visibly stored in the settings row, the next
message in that group is still processed with the startup model
(`GeminiService.model`, bound once from `config.gemini_model`) and the
startup context limit (`config.context_messages_count`), not the updated
values: the update is not in effect for the next message. -/
theorem claim_C2_update_not_visible_next_message :
    (handleSettingUpdate cfgC2 DB.emptyDB 1 "model" "gemini-2.5-pro").2 = true ∧
    (handleSettingUpdate cfgC2 dbC2a 1 "context" "3").2 = true ∧
    (getGroupSettings cfgC2 dbC2b 1).2.geminiModel = "gemini-2.5-pro" ∧
    (getGroupSettings cfgC2 dbC2b 1).2.contextMessagesCount = 3 ∧
    (effectiveParams cfgC2 dbC2b 1).modelName = "gemini-2.5-flash" ∧
    (effectiveParams cfgC2 dbC2b 1).contextLimit = 7 ∧
    ("gemini-2.5-flash" : String) ≠ "gemini-2.5-pro" ∧ (7 : Nat) ≠ 3 := by
  refine ⟨by decide, by decide, by decide, by decide, by decide, by decide,
    by decide, by decide⟩

/-! ### Claim C5 -/

/-- C5: whenever the fence-stripped model output fails to parse as JSON, the
classifier returns the conversation fallback structure; being a total
function it raises nothing, and nothing of the malformed output reaches
the result. -/
theorem claim_C5_malformed_output_falls_back (gen : GenRequest → String)
    (parseJson : String → Option IntentData) (m : String) (ctx : List MsgDict)
    (t : ℚ) (tone : String)
    (h : parseJson (stripCodeFences (gen (analyzeIntentRequest m ctx t tone))) = none) :
    analyzeIntent gen parseJson m ctx t tone = conversationFallback := by
  have hdef : analyzeIntent gen parseJson m ctx t tone =
      match parseJson (stripCodeFences (gen (analyzeIntentRequest m ctx t tone))) with
      | some d => d
      | none => conversationFallback := rfl
  rw [hdef, h]

/-- Witness for C5 at a concrete malformed (non-JSON) model output. -/
theorem claim_C5_witness :
    ((fun _ : String => (none : Option IntentData))
        (stripCodeFences ((fun _ : GenRequest => "```json\nnot json\n```")
          (analyzeIntentRequest "hello" [] 0.7 "friendly"))) = none) ∧
    analyzeIntent (fun _ : GenRequest => "```json\nnot json\n```")
        (fun _ : String => (none : Option IntentData)) "hello" [] 0.7 "friendly"
      = conversationFallback :=
  ⟨rfl, claim_C5_malformed_output_falls_back _ _ _ _ _ _ rfl⟩

/-! ### Claim C6 -/

/-- C6: the classification call ignores the caller-supplied temperature: for
any two temperatures the issued generation request is syntactically
identical (with the hard-coded temperature `0.3`), and hence for the same
external model the classification result is identical. -/
theorem claim_C6_classifier_ignores_temperature (gen : GenRequest → String)
    (parseJson : String → Option IntentData) (m : String) (ctx : List MsgDict)
    (tone : String) (t1 t2 : ℚ) :
    analyzeIntentRequest m ctx t1 tone = analyzeIntentRequest m ctx t2 tone ∧
    (analyzeIntentRequest m ctx t1 tone).temperature = 0.3 ∧
    analyzeIntent gen parseJson m ctx t1 tone
      = analyzeIntent gen parseJson m ctx t2 tone :=
  ⟨rfl, rfl, rfl⟩

/-! ### Claim C9 -/

/-- C9: the should-respond decision (1) answers every group message whose
text contains the configured (nonempty) handle case-insensitively,
(2) declines every group message with no entity annotations, no
handle or display-name substring and no reply linkage to the bot, and
(3) answers every private-chat message unconditionally. -/
theorem claim_C9_should_respond (cfg : BotConfig) (bot : BotInfo) (m : MsgIn) :
    (isGroupKind m.chatKind = true → cfg.botUsername ≠ "" →
      ciContains m.text cfg.botUsername = true →
      respondDecision cfg bot m = true) ∧
    (isGroupKind m.chatKind = true → m.entities = [] →
      ciContains m.text cfg.botUsername = false →
      ciContains m.text bot.firstName = false → replyToBot bot m = false →
      respondDecision cfg bot m = false) ∧
    (m.chatKind = ChatKind.privateChat → respondDecision cfg bot m = true) := by
  refine ⟨?_, ?_, ?_⟩
  · intro hg hne hci
    simp [respondDecision, hg, shouldRespond, hci, hne]
  · intro hg hent h1 h2 h3
    simp [respondDecision, hg, shouldRespond, hent, h1, h2, h3]
  · intro hp
    simp [respondDecision, isGroupKind, hp]

/-- Bot configuration for the C9 witness. -/
def cfgC9 : BotConfig := { defaultConfig with botUsername := "helper_bot" }

/-- Bot identity for the C9 witness. -/
def botC9 : BotInfo := { id := 99, firstName := "Huan" }

/-- Group message whose text contains the handle in a different case. -/
def msgC9a : MsgIn :=
  { chatKind := ChatKind.groupChat, chatId := 1, senderId := 42, messageId := 1,
    text := "hi HELPER_BOT!", entities := [], replyToMessageId := none,
    replyToSenderId := none }

/-- Unrelated group message: no entities, no handle or name substring, no
reply linkage. -/
def msgC9b : MsgIn :=
  { chatKind := ChatKind.groupChat, chatId := 1, senderId := 42, messageId := 2,
    text := "nice weather today", entities := [], replyToMessageId := none,
    replyToSenderId := none }

/-- A private-chat message. -/
def msgC9c : MsgIn :=
  { chatKind := ChatKind.privateChat, chatId := 5, senderId := 42, messageId := 3,
    text := "anything", entities := [], replyToMessageId := none,
    replyToSenderId := none }

/-- Witness for C9 on three concrete messages. -/
theorem claim_C9_witness :
    respondDecision cfgC9 botC9 msgC9a = true ∧
    respondDecision cfgC9 botC9 msgC9b = false ∧
    respondDecision cfgC9 botC9 msgC9c = true :=
  ⟨(claim_C9_should_respond cfgC9 botC9 msgC9a).1 (by decide) (by decide) (by decide),
   (claim_C9_should_respond cfgC9 botC9 msgC9b).2.1 (by decide) rfl (by decide)
     (by decide) (by decide),
   (claim_C9_should_respond cfgC9 botC9 msgC9c).2.2 rfl⟩

/-! ### Claim C10 -/

/-- C10: when the underlying store write fails, `save_user_info` returns
`False` without raising and without changing the store, and
`_handle_save_info` ignores that boolean: with both key and value present
it still returns the success confirmation, never the apology string. -/
theorem claim_C10_storage_failure_still_confirms (db : DB) (it : IntentData)
    (uid : Int) (k v : String) (hk : it.key = some k) (hv : it.value = some v)
    (hk0 : k ≠ "") (hv0 : v ≠ "") :
    saveUserInfo false db uid k v = (db, false) ∧
    handleSaveInfo false db it uid = (db, saveConfirmMsg k v) ∧
    (handleSaveInfo false db it uid).2 ≠ saveErrorMsg := by
  have h2 : handleSaveInfo false db it uid = (db, saveConfirmMsg k v) := by
    simp [handleSaveInfo, hk, hv, pyTruthy, hk0, hv0, saveUserInfo]
  refine ⟨rfl, h2, ?_⟩
  rw [h2]
  exact saveConfirmMsg_ne_saveErrorMsg k v

/-- Classification result for the C10 witness. -/
def itC10 : IntentData :=
  { intent := some "save_info", key := some "phone_number", value := some "123",
    targetUsername := none, messageCount := none, responseType := none }

/-- Witness for C10 at a concrete failed save. -/
theorem claim_C10_witness :
    saveUserInfo false DB.emptyDB 7 "phone_number" "123" = (DB.emptyDB, false) ∧
    handleSaveInfo false DB.emptyDB itC10 7
      = (DB.emptyDB, saveConfirmMsg "phone_number" "123") ∧
    (handleSaveInfo false DB.emptyDB itC10 7).2 ≠ saveErrorMsg :=
  claim_C10_storage_failure_still_confirms DB.emptyDB itC10 7 "phone_number" "123"
    rfl rfl (by decide) (by decide)

/-! ### Claims C1 and C3: the context window and get_recent_messages -/

theorem joinRows_fst_sublist (db : DB) (g : Int) :
    ((joinRows db g).map Prod.fst).Sublist db.log := by
  unfold joinRows
  have h1 : ∀ l : List LogRow,
      ((l.filterMap (fun r =>
          (db.users.find? (fun u => u.telegramId == r.userId)).map
            (fun u => (r, u)))).map Prod.fst).Sublist l := by
    intro l
    induction l with
    | nil => simp
    | cons a t ih =>
      rw [List.filterMap_cons]
      cases hfa : (db.users.find? (fun u => u.telegramId == a.userId)).map
          (fun u => (a, u)) with
      | none => exact ih.cons a
      | some x =>
        obtain ⟨u, _, hx⟩ := Option.map_eq_some'.mp hfa
        rw [List.map_cons, ← hx]
        exact List.Sublist.cons₂ a ih
  exact (h1 _).trans (List.filter_sublist _)

theorem getRecentMessages_chronological (db : DB) (g : Int) (n : Nat)
    (h : db.log.Pairwise (fun a b => a.timestamp < b.timestamp)) :
    (getRecentMessages db g n).Pairwise (fun a b => a.timestamp < b.timestamp) := by
  rw [getRecentMessages_eq_drop]
  have h1 : ((joinRows db g).map Prod.fst).Pairwise
      (fun a b => a.timestamp < b.timestamp) :=
    List.Pairwise.sublist (joinRows_fst_sublist db g) h
  have h2 : (joinRows db g).Pairwise
      (fun a b => a.1.timestamp < b.1.timestamp) := by
    rw [List.pairwise_map] at h1
    exact h1
  have h3 : ((joinRows db g).map rowToDict).Pairwise
      (fun a b => a.timestamp < b.timestamp) := by
    rw [List.pairwise_map]
    exact h2
  exact List.Pairwise.sublist (List.drop_sublist _ _) h3

/-- C3 (amended): for every store state, group and limit,
`get_recent_messages` returns exactly the `min (N, k)` most recent rows of
the group that survive the user join, where `k` counts the join-surviving
rows; the result is the terminal segment of the chronological joined list
(so oldest-first, in particular strictly increasing in timestamp whenever
the log is), and fewer than `N` rows come back without error when fewer
survive. -/
theorem claim_C3_get_recent_messages (db : DB) (g : Int) (n : Nat) :
    getRecentMessages db g n
      = ((joinRows db g).map rowToDict).drop ((joinRows db g).length - n) ∧
    (getRecentMessages db g n).length = min n (joinRows db g).length ∧
    (db.log.Pairwise (fun a b => a.timestamp < b.timestamp) →
      (getRecentMessages db g n).Pairwise (fun a b => a.timestamp < b.timestamp)) :=
  ⟨getRecentMessages_eq_drop db g n, getRecentMessages_length db g n,
   fun h => getRecentMessages_chronological db g n h⟩

/-- Store for the C3 witness: one known user with two logged messages. -/
def dbC3w : DB :=
  match getOrCreateUser DB.emptyDB 42 (some "alice") none none with
  | some r =>
      (logConversation
        (logConversation r.1 1 42 100 "first" false false none).1
        1 42 101 "second" false false none).1
  | none => DB.emptyDB

/-- Witness for C3 at a concrete store and limit. -/
theorem claim_C3_witness :
    dbC3w.log.Pairwise (fun a b => a.timestamp < b.timestamp) ∧
    getRecentMessages dbC3w 1 1
      = ((joinRows dbC3w 1).map rowToDict).drop ((joinRows dbC3w 1).length - 1) ∧
    (getRecentMessages dbC3w 1 1).length = min 1 (joinRows dbC3w 1).length ∧
    (getRecentMessages dbC3w 1 1).Pairwise (fun a b => a.timestamp < b.timestamp) :=
  ⟨by decide, (claim_C3_get_recent_messages dbC3w 1 1).1,
   (claim_C3_get_recent_messages dbC3w 1 1).2.1,
   (claim_C3_get_recent_messages dbC3w 1 1).2.2 (by decide)⟩

/-- The consequence of C3 as frozen, at one input: the number of rows
returned equals `min (N, number of rows logged for the group)`. -/
def c3ClaimCheck (db : DB) (g : Int) (n : Nat) : Bool :=
  (getRecentMessages db g n).length
    == min n ((db.log.filter (fun r => r.groupId == g)).length)

/-- Store for the C3 counterexample, built by the embedded operations exactly
as the router does: a human message from user 42 (whose `users` row
exists), then the bot's own reply logged under the bot id 99, for which
`get_or_create_user` is never called. -/
def dbC3 : DB :=
  match getOrCreateUser DB.emptyDB 42 (some "alice") none none with
  | some r =>
      (logConversation
        (logConversation r.1 1 42 100 "hi bot" false false none).1
        1 99 101 "hello alice" true true (some 100)).1
  | none => DB.emptyDB

/-- C3 counterexample: two rows are logged for group 1, but
`get_recent_messages` with limit 5 returns only one of them — the bot's
own logged reply is dropped by the inner join with `users` — so the
result is not the `min (N, logged-row-count)` most recent logged rows. -/
theorem claim_C3_counterexample :
    c3ClaimCheck dbC3 1 5 = false ∧
    (dbC3.log.filter (fun r => r.groupId == 1)).length = 2 ∧
    (getRecentMessages dbC3 1 5).length = 1 := by
  exact ⟨by decide, by decide, by decide⟩

/-- C1 (amended): whenever the router answers a group message, the context
window it fetched is the terminal segment, of length
`min (config.context_messages_count, joined-row-count)`, of the group's
chronological joined log — the limit is the bot-wide configured context
count (default 7), fetched newest-first and reversed to oldest-first. -/
theorem claim_C1_context_window (cfg : BotConfig) (bot : BotInfo) (db : DB)
    (m : MsgIn) (w : List MsgDict)
    (h : (handleGroupMessage cfg bot db m).2 = some w) :
    w = ((joinRows (handleGroupMessage cfg bot db m).1 m.chatId).map rowToDict).drop
        ((joinRows (handleGroupMessage cfg bot db m).1 m.chatId).length
          - cfg.contextMessagesCount) ∧
    w.length = min cfg.contextMessagesCount
      (joinRows (handleGroupMessage cfg bot db m).1 m.chatId).length ∧
    defaultConfig.contextMessagesCount = 7 := by
  cases hgo : getOrCreateUser db m.senderId none none none with
  | none =>
    have hd : handleGroupMessage cfg bot db m = (db, none) := by
      unfold handleGroupMessage
      rw [hgo]
    rw [hd] at h
    exact Option.noConfusion h
  | some r =>
    obtain ⟨db1, u⟩ := r
    have hd : handleGroupMessage cfg bot db m =
        handleGroupMessageAfterLog cfg bot
          (logConversation db1 m.chatId m.senderId m.messageId m.text
            false m.replyToMessageId.isSome m.replyToMessageId).1 m := by
      unfold handleGroupMessage
      rw [hgo]
    rw [hd] at h ⊢
    unfold handleGroupMessageAfterLog at h ⊢
    by_cases hs : shouldRespond cfg bot m
    · rw [if_pos hs] at h ⊢
      have h2 := Option.some.inj h
      subst h2
      exact ⟨getRecentMessages_eq_drop _ _ _, getRecentMessages_length _ _ _, rfl⟩
    · rw [if_neg hs] at h
      exact Option.noConfusion h

/-- Config for the C1 witness. -/
def cfgC1w : BotConfig := { defaultConfig with botUsername := "b" }

/-- Bot identity for the C1 witness. -/
def botC1w : BotInfo := { id := 99, firstName := "Huan" }

/-- Responding group message for the C1 witness. -/
def msgC1w : MsgIn :=
  { chatKind := ChatKind.groupChat, chatId := 1, senderId := 42, messageId := 200,
    text := "@b", entities := [], replyToMessageId := none,
    replyToSenderId := none }

/-- The context window fetched in the C1 witness run. -/
def wC1 : List MsgDict :=
  [{ messageId := 200, userId := 42, username := "Unknown", messageText := "@b",
     timestamp := 0, isBotMessage := false, isReply := false }]

/-- Witness for C1 at a concrete answered group message. -/
theorem claim_C1_witness :
    (handleGroupMessage cfgC1w botC1w DB.emptyDB msgC1w).2 = some wC1 ∧
    (wC1 = ((joinRows (handleGroupMessage cfgC1w botC1w DB.emptyDB msgC1w).1
          msgC1w.chatId).map rowToDict).drop
        ((joinRows (handleGroupMessage cfgC1w botC1w DB.emptyDB msgC1w).1
          msgC1w.chatId).length - cfgC1w.contextMessagesCount) ∧
     wC1.length = min cfgC1w.contextMessagesCount
       (joinRows (handleGroupMessage cfgC1w botC1w DB.emptyDB msgC1w).1
         msgC1w.chatId).length ∧
     defaultConfig.contextMessagesCount = 7) :=
  ⟨by decide, claim_C1_context_window cfgC1w botC1w DB.emptyDB msgC1w wC1 (by decide)⟩

/-- The frozen C1 claim, at one input: when the router answers, the fetched
window has `min (group-configured context size, logged-row-count)`
entries. -/
def c1ClaimCheck (cfg : BotConfig) (bot : BotInfo) (db : DB) (m : MsgIn) : Bool :=
  match handleGroupMessage cfg bot db m with
  | (db', some w) =>
      w.length == min ((getGroupSettings cfg db' m.chatId).2.contextMessagesCount)
        ((db'.log.filter (fun r => r.groupId == m.chatId)).length)
  | (_, none) => true

/-- Config for the C1 counterexample. -/
def cfgC1 : BotConfig := { defaultConfig with botUsername := "helper_bot" }

/-- Bot identity for the C1 counterexample. -/
def botC1 : BotInfo := { id := 99, firstName := "Huan" }

/-- Store for the C1 counterexample: the admin sets the group-1
context-window size to 3 through the settings menu, then four messages
from a known user are logged. -/
def dbC1 : DB :=
  match getOrCreateUser (handleSettingUpdate cfgC1 DB.emptyDB 1 "context" "3").1
      42 (some "alice") none none with
  | some r =>
      (logConversation (logConversation (logConversation (logConversation r.1
        1 42 100 "m1" false false none).1
        1 42 101 "m2" false false none).1
        1 42 102 "m3" false false none).1
        1 42 103 "m4" false false none).1
  | none => DB.emptyDB

/-- Incoming answered message for the C1 counterexample. -/
def msgC1 : MsgIn :=
  { chatKind := ChatKind.groupChat, chatId := 1, senderId := 42, messageId := 104,
    text := "hey @helper_bot", entities := [], replyToMessageId := none,
    replyToSenderId := none }

/-- C1 counterexample: the group's configured context-window size is 3, five
messages are logged after the incoming one, yet the fetched window holds
5 entries (`min (config default 7, 5)`), not `min (3, 5) = 3` — the fetch
uses the bot-wide config value, not the group's setting. -/
theorem claim_C1_counterexample :
    c1ClaimCheck cfgC1 botC1 dbC1 msgC1 = false ∧
    (getGroupSettings cfgC1 (handleGroupMessage cfgC1 botC1 dbC1 msgC1).1
      1).2.contextMessagesCount = 3 ∧
    ((handleGroupMessage cfgC1 botC1 dbC1 msgC1).2.map List.length) = some 5 := by
  exact ⟨by decide, by decide, by decide⟩

/-! ### Claim C8: the summarize handler -/

theorem joinRows_eq_nil_iff (db : DB) (g : Int)
    (h : ∀ r ∈ db.log, r.groupId = g → ∃ u ∈ db.users, u.telegramId = r.userId) :
    joinRows db g = [] ↔ db.log.filter (fun r => r.groupId == g) = [] := by
  unfold joinRows
  constructor
  · intro hj
    cases hl : db.log.filter (fun r => r.groupId == g) with
    | nil => rfl
    | cons r t =>
      exfalso
      rw [hl, List.filterMap_cons] at hj
      have hrmem : r ∈ db.log.filter (fun r => r.groupId == g) := by
        rw [hl]
        exact List.mem_cons_self r t
      have hr := List.mem_filter.mp hrmem
      obtain ⟨u, hu, hut⟩ := h r hr.1 (by simpa using hr.2)
      have hfind : (db.users.find? (fun v => v.telegramId == r.userId)).isSome := by
        rw [List.find?_isSome]
        exact ⟨u, hu, by simp [hut]⟩
      cases hf : db.users.find? (fun v => v.telegramId == r.userId) with
      | none => rw [hf] at hfind; simp at hfind
      | some u' => rw [hf] at hj; simp at hj
  · intro hf
    rw [hf]
    rfl

/-- C8: the summarize handler reads `message_count` recent messages,
defaulting to 20 when the classifier omits the field; an empty read yields
the canned reply without invoking the Gateway's summarize operation,
a nonempty read yields the Gateway summary wrapped with the header; and
(whenever every logged sender of the group is a known user and the count
is positive) the read is empty exactly when zero messages are logged for
the group. -/
theorem claim_C8_summarize (db : DB) (summarizer : List MsgDict → String)
    (it : IntentData) (g : Int) :
    (it.messageCount = none → summarizeCount it = 20) ∧
    (getRecentMessages db g (summarizeCount it) = [] →
      handleSummarize db summarizer it g = (summarizeEmptyMsg, false)) ∧
    (getRecentMessages db g (summarizeCount it) ≠ [] →
      handleSummarize db summarizer it g =
        (summarizeHeader (summarizer (getRecentMessages db g (summarizeCount it))),
         true)) ∧
    ((∀ r ∈ db.log, r.groupId = g → ∃ u ∈ db.users, u.telegramId = r.userId) →
      0 < summarizeCount it →
      (getRecentMessages db g (summarizeCount it) = []
        ↔ db.log.filter (fun r => r.groupId == g) = [])) := by
  refine ⟨?_, ?_, ?_, ?_⟩
  · intro h
    simp [summarizeCount, h]
  · intro h
    simp [handleSummarize, h]
  · intro h
    have he : (getRecentMessages db g (summarizeCount it)).isEmpty = false := by
      cases hcase : getRecentMessages db g (summarizeCount it) with
      | nil => exact absurd hcase h
      | cons a t => rfl
    simp [handleSummarize, he]
  · intro hall hpos
    constructor
    · intro hnil
      have hlen := getRecentMessages_length db g (summarizeCount it)
      rw [hnil] at hlen
      rcases Nat.min_eq_zero_iff.mp hlen.symm with h0 | h0
      · omega
      · exact (joinRows_eq_nil_iff db g hall).mp (List.length_eq_zero.mp h0)
    · intro hfil
      rw [getRecentMessages_eq_drop, (joinRows_eq_nil_iff db g hall).mpr hfil]
      simp

/-- Store for the C8 witness: one known user with one logged message. -/
def dbC8 : DB :=
  match getOrCreateUser DB.emptyDB 42 (some "alice") none none with
  | some r => (logConversation r.1 1 42 100 "hello" false false none).1
  | none => DB.emptyDB

/-- Classification result for the C8 witness: `message_count` omitted. -/
def itC8 : IntentData :=
  { intent := some "summarize", key := none, value := none,
    targetUsername := none, messageCount := none, responseType := none }

/-- Witness for C8 on an empty and a nonempty store. -/
theorem claim_C8_witness :
    summarizeCount itC8 = 20 ∧
    handleSummarize DB.emptyDB (fun _ => "S") itC8 1 = (summarizeEmptyMsg, false) ∧
    handleSummarize dbC8 (fun _ => "S") itC8 1
      = (summarizeHeader ((fun _ : List MsgDict => "S")
          (getRecentMessages dbC8 1 (summarizeCount itC8))), true) ∧
    (getRecentMessages dbC8 1 (summarizeCount itC8) = []
      ↔ dbC8.log.filter (fun r => r.groupId == 1) = []) :=
  ⟨(claim_C8_summarize DB.emptyDB (fun _ => "S") itC8 1).1 rfl,
   (claim_C8_summarize DB.emptyDB (fun _ => "S") itC8 1).2.1 (by decide),
   (claim_C8_summarize dbC8 (fun _ => "S") itC8 1).2.2.1 (by decide),
   (claim_C8_summarize dbC8 (fun _ => "S") itC8 1).2.2.2 (by decide) (by decide)⟩

/-! ### Claim C4: upsert semantics of save_user_info -/

/-- All stored fact rows for a given internal user id and key. -/
def factRows (db : DB) (userId : Nat) (k : String) : List UserInfoRow :=
  db.userInfo.filter (fun i => i.userId == userId && i.key == k)

/-- The Fact invariant: at most one stored row per `(user, key)`. -/
def FactInv (db : DB) : Prop := ∀ u k, (factRows db u k).length ≤ 1

/-- The UNIQUE constraint on `users.telegram_id` (`models.py`). -/
def TidUnique (db : DB) : Prop :=
  ∀ t : Int, (db.users.filter (fun u => u.telegramId == t)).length ≤ 1

/-- Store well-formedness used by the save lemmas. -/
def DBWF (db : DB) : Prop := TidUnique db ∧ FactInv db

theorem findOneOrNone_of_le_one (p : α → Bool) (l : List α)
    (h : (l.filter p).length ≤ 1) :
    findOneOrNone p l = some (l.filter p).head? := by
  unfold findOneOrNone
  cases hl : l.filter p with
  | nil => rfl
  | cons a t =>
    cases t with
    | nil => rfl
    | cons b t2 => rw [hl] at h; simp at h

theorem filter_eq_of_findOneOrNone_some (p : α → Bool) (l : List α) (a : α)
    (h : findOneOrNone p l = some (some a)) : l.filter p = [a] := by
  unfold findOneOrNone at h
  cases hl : l.filter p with
  | nil => rw [hl] at h; simp at h
  | cons b t =>
    cases t with
    | nil =>
      rw [hl] at h
      simp only [Option.some.injEq] at h
      rw [h]
    | cons c t2 => rw [hl] at h; simp at h

theorem filter_eq_nil_of_findOneOrNone_none (p : α → Bool) (l : List α)
    (h : findOneOrNone p l = some none) : l.filter p = [] := by
  unfold findOneOrNone at h
  cases hl : l.filter p with
  | nil => rfl
  | cons b t =>
    cases t with
    | nil => rw [hl] at h; simp at h
    | cons c t2 => rw [hl] at h; simp at h

theorem updFactRow_userId (A : Nat) (k v : String) (i : UserInfoRow) :
    (updFactRow A k v i).userId = i.userId := by
  unfold updFactRow
  split <;> rfl

theorem updFactRow_key (A : Nat) (k v : String) (i : UserInfoRow) :
    (updFactRow A k v i).key = i.key := by
  unfold updFactRow
  split <;> rfl

theorem filter_map_updFactRow (A : Nat) (k v : String) (B : Nat) (k' : String)
    (l : List UserInfoRow) :
    (l.map (updFactRow A k v)).filter (fun i => i.userId == B && i.key == k')
      = (l.filter (fun i => i.userId == B && i.key == k')).map (updFactRow A k v) := by
  rw [List.filter_map]
  congr 1
  apply List.filter_congr
  intro i _
  simp [Function.comp, updFactRow_userId, updFactRow_key]

theorem saveUserInfoFacts_spec (db : DB) (A : Nat) (k v : String)
    (hinv : FactInv db) :
    ∃ db', saveUserInfoFacts db A k v = some db' ∧
      db'.users = db.users ∧
      db'.nextUserId = db.nextUserId ∧
      factRows db' A k = [{ userId := A, key := k, value := v }] ∧
      ∀ B k', ¬(B = A ∧ k' = k) →
        (factRows db' B k').length = (factRows db B k').length := by
  unfold saveUserInfoFacts
  cases hf : findOneOrNone (fun i => i.userId == A && i.key == k) db.userInfo with
  | none =>
    exfalso
    rw [findOneOrNone_of_le_one _ _ (hinv A k)] at hf
    exact Option.noConfusion hf
  | some found =>
    cases found with
    | some r =>
      have hfil : db.userInfo.filter (fun i => i.userId == A && i.key == k) = [r] :=
        filter_eq_of_findOneOrNone_some _ _ _ hf
      have hr : (r.userId == A && r.key == k) = true := by
        have hm : r ∈ db.userInfo.filter (fun i => i.userId == A && i.key == k) := by
          rw [hfil]
          exact List.mem_cons_self r []
        exact (List.mem_filter.mp hm).2
      have hr2 : r.userId = A ∧ r.key = k := by
        have h' := hr
        simp only [Bool.and_eq_true, beq_iff_eq] at h'
        exact h'
      have hrA : r.userId = A := hr2.1
      have hrk : r.key = k := hr2.2
      refine ⟨_, rfl, rfl, rfl, ?_, ?_⟩
      · show (db.userInfo.map (updFactRow A k v)).filter
            (fun i => i.userId == A && i.key == k) = _
        rw [filter_map_updFactRow, hfil]
        simp [updFactRow, hr, hrA, hrk]
      · intro B k' hBk
        show ((db.userInfo.map (updFactRow A k v)).filter
            (fun i => i.userId == B && i.key == k')).length = _
        rw [filter_map_updFactRow]
        simp [factRows]
    | none =>
      have hfil : db.userInfo.filter (fun i => i.userId == A && i.key == k) = [] :=
        filter_eq_nil_of_findOneOrNone_none _ _ hf
      refine ⟨_, rfl, rfl, rfl, ?_, ?_⟩
      · show (db.userInfo ++ [({ userId := A, key := k, value := v } : UserInfoRow)]).filter
            (fun i => i.userId == A && i.key == k) = _
        rw [List.filter_append, hfil]
        simp
      · intro B k' hBk
        show ((db.userInfo ++ [({ userId := A, key := k, value := v } : UserInfoRow)]).filter
            (fun i => i.userId == B && i.key == k')).length = _
        rw [List.filter_append]
        have hcond : ¬((({ userId := A, key := k, value := v } : UserInfoRow).userId == B
            && ({ userId := A, key := k, value := v } : UserInfoRow).key == k') = true) := by
          rw [Bool.and_eq_true, beq_iff_eq, beq_iff_eq]
          rintro ⟨h1, h2⟩
          exact hBk ⟨h1.symm, h2.symm⟩
        simp only [List.filter_cons, List.filter_nil, if_neg hcond]
        simp [factRows]

theorem saveUserInfoRun_spec (db : DB) (uid : Int) (k v : String)
    (h : DBWF db) :
    ∃ u : UserRow, ∃ db',
      saveUserInfoRun db uid k v = some db' ∧
      db'.users.filter (fun w => w.telegramId == uid) = [u] ∧
      DBWF db' ∧
      factRows db' u.id k = [{ userId := u.id, key := k, value := v }] := by
  obtain ⟨htid, hfact⟩ := h
  unfold saveUserInfoRun
  cases hu : findOneOrNone (fun u => u.telegramId == uid) db.users with
  | none =>
    exfalso
    rw [findOneOrNone_of_le_one _ _ (htid uid)] at hu
    exact Option.noConfusion hu
  | some found =>
    cases found with
    | some u =>
      obtain ⟨db', hrun, husers, _, hAk, hothers⟩ :=
        saveUserInfoFacts_spec db u.id k v hfact
      refine ⟨u, db', hrun, ?_, ⟨?_, ?_⟩, hAk⟩
      · rw [husers]
        exact filter_eq_of_findOneOrNone_some _ _ _ hu
      · intro t
        rw [husers]
        exact htid t
      · intro B k'
        by_cases hBk : B = u.id ∧ k' = k
        · obtain ⟨rfl, rfl⟩ := hBk
          rw [hAk]
          simp
        · rw [hothers B k' hBk]
          exact hfact B k'
    | none =>
      have hfilnil : db.users.filter (fun w => w.telegramId == uid) = [] :=
        filter_eq_nil_of_findOneOrNone_none _ _ hu
      have hg : getOrCreateUser db uid none none none =
          some ({ db with
                    users := db.users ++ [UserRow.mk db.nextUserId uid none none none]
                    nextUserId := db.nextUserId + 1 },
                UserRow.mk db.nextUserId uid none none none) := by
        unfold getOrCreateUser
        rw [hu]
      rw [hg]
      have hfact1 : FactInv { db with
          users := db.users ++ [UserRow.mk db.nextUserId uid none none none]
          nextUserId := db.nextUserId + 1 } := hfact
      obtain ⟨db', hrun, husers, _, hAk, hothers⟩ :=
        saveUserInfoFacts_spec _ db.nextUserId k v hfact1
      refine ⟨UserRow.mk db.nextUserId uid none none none, db', hrun, ?_,
        ⟨?_, ?_⟩, hAk⟩
      · rw [husers]
        show (db.users ++ [UserRow.mk db.nextUserId uid none none none]).filter
          (fun w => w.telegramId == uid) = _
        rw [List.filter_append, hfilnil]
        simp
      · intro t
        rw [husers]
        show ((db.users ++ [UserRow.mk db.nextUserId uid none none none]).filter
          (fun w => w.telegramId == t)).length ≤ 1
        rw [List.filter_append]
        by_cases ht : uid = t
        · subst ht
          rw [hfilnil]
          simp
        · have hnil2 : ([UserRow.mk db.nextUserId uid none none none].filter
              (fun w => w.telegramId == t)) = [] := by
            simp only [List.filter_cons, List.filter_nil]
            rw [if_neg]
            rw [beq_iff_eq]
            exact ht
          rw [hnil2]
          simpa using htid t
      · intro B k'
        by_cases hBk : B = db.nextUserId ∧ k' = k
        · obtain ⟨rfl, rfl⟩ := hBk
          rw [hAk]
          simp
        · rw [hothers B k' hBk]
          exact hfact B k'

theorem saveUserInfo_true_spec (db : DB) (uid : Int) (k v : String)
    (h : DBWF db) :
    ∃ u : UserRow,
      (saveUserInfo true db uid k v).2 = true ∧
      (saveUserInfo true db uid k v).1.users.filter (fun w => w.telegramId == uid)
        = [u] ∧
      DBWF (saveUserInfo true db uid k v).1 ∧
      factRows (saveUserInfo true db uid k v).1 u.id k
        = [{ userId := u.id, key := k, value := v }] := by
  obtain ⟨u, db', hrun, hfil, hwf, hfr⟩ := saveUserInfoRun_spec db uid k v h
  unfold saveUserInfo
  rw [hrun]
  exact ⟨u, rfl, hfil, hwf, hfr⟩

theorem saveUserInfo_wf (ok : Bool) (db : DB) (uid : Int) (k v : String)
    (h : DBWF db) : DBWF (saveUserInfo ok db uid k v).1 := by
  cases ok with
  | false => exact h
  | true =>
    obtain ⟨u, _, _, hwf, _⟩ := saveUserInfo_true_spec db uid k v h
    exact hwf

/-- One `save_user_info` call as issued by the dispatcher over time. -/
structure SaveOp where
  commitOk : Bool
  uid : Int
  key : String
  value : String
deriving Repr, DecidableEq

/-- A sequence of `save_user_info` operations applied to the store. -/
def runSaves (db : DB) (ops : List SaveOp) : DB :=
  ops.foldl (fun d op => (saveUserInfo op.commitOk d op.uid op.key op.value).1) db

theorem runSaves_wf (ops : List SaveOp) (db : DB) (h : DBWF db) :
    DBWF (runSaves db ops) := by
  induction ops generalizing db with
  | nil => exact h
  | cons op t ih =>
    exact ih _ (saveUserInfo_wf op.commitOk db op.uid op.key op.value h)

theorem dbwf_empty : DBWF DB.emptyDB := by
  constructor
  · intro t
    simp [DB.emptyDB]
  · intro u k
    simp [factRows, DB.emptyDB]

/-- C4: starting from the fresh store, after any sequence of
`save_user_info` operations (including failed commits) at most one Fact
row exists per `(user, key)`; and saving twice for the same `(user, key)`
leaves exactly one stored row for that pair, holding the value of the
most recent save — an in-place update, not a duplicate insert — which
`get_user_info` then returns. -/
theorem claim_C4_fact_upsert (ops : List SaveOp) (uid : Int) (k v1 v2 : String) :
    FactInv (runSaves DB.emptyDB ops) ∧
    (∃ u : UserRow, u.telegramId = uid ∧
      u ∈ (saveUserInfo true (saveUserInfo true (runSaves DB.emptyDB ops)
            uid k v1).1 uid k v2).1.users ∧
      factRows (saveUserInfo true (saveUserInfo true (runSaves DB.emptyDB ops)
            uid k v1).1 uid k v2).1 u.id k
        = [{ userId := u.id, key := k, value := v2 }]) ∧
    (getUserInfo (saveUserInfo true (saveUserInfo true (runSaves DB.emptyDB ops)
          uid k v1).1 uid k v2).1 uid k).map (fun r => r.value) = some v2 := by
  have hwf0 := runSaves_wf ops DB.emptyDB dbwf_empty
  obtain ⟨u1, hok1, hfil1, hwf1, hfr1⟩ :=
    saveUserInfo_true_spec (runSaves DB.emptyDB ops) uid k v1 hwf0
  obtain ⟨u2, hok2, hfil2, hwf2, hfr2⟩ :=
    saveUserInfo_true_spec (saveUserInfo true (runSaves DB.emptyDB ops)
      uid k v1).1 uid k v2 hwf1
  have hu2 : u2 ∈ (saveUserInfo true (saveUserInfo true (runSaves DB.emptyDB ops)
      uid k v1).1 uid k v2).1.users ∧ (u2.telegramId == uid) = true := by
    have hm : u2 ∈ (saveUserInfo true (saveUserInfo true (runSaves DB.emptyDB ops)
        uid k v1).1 uid k v2).1.users.filter (fun w => w.telegramId == uid) := by
      rw [hfil2]
      exact List.mem_cons_self u2 []
    exact List.mem_filter.mp hm
  refine ⟨hwf0.2, ⟨u2, by simpa using hu2.2, hu2.1, hfr2⟩, ?_⟩
  unfold getUserInfo
  have hf1 : findOneOrNone (fun u => u.telegramId == uid)
      (saveUserInfo true (saveUserInfo true (runSaves DB.emptyDB ops)
        uid k v1).1 uid k v2).1.users = some (some u2) := by
    unfold findOneOrNone
    rw [hfil2]
  rw [hf1]
  have hf2 : findOneOrNone (fun i => i.userId == u2.id && i.key == k)
      (saveUserInfo true (saveUserInfo true (runSaves DB.emptyDB ops)
        uid k v1).1 uid k v2).1.userInfo
      = some (some { userId := u2.id, key := k, value := v2 }) := by
    unfold findOneOrNone
    rw [show (saveUserInfo true (saveUserInfo true (runSaves DB.emptyDB ops)
        uid k v1).1 uid k v2).1.userInfo.filter
        (fun i => i.userId == u2.id && i.key == k)
        = [{ userId := u2.id, key := k, value := v2 }] from hfr2]
  show (match findOneOrNone (fun i : UserInfoRow => i.userId == u2.id && i.key == k)
      (saveUserInfo true (saveUserInfo true (runSaves DB.emptyDB ops)
        uid k v1).1 uid k v2).1.userInfo with
    | some r => r
    | none => none).map (fun r : UserInfoRow => r.value) = some v2
  rw [hf2]
  rfl

/-! ### Claim C7: the save_info handler -/

theorem getUserInfo_after_save (db : DB) (uid : Int) (k v : String)
    (h : DBWF db) :
    (getUserInfo (saveUserInfo true db uid k v).1 uid k).map
      (fun r : UserInfoRow => r.value) = some v := by
  obtain ⟨u, hok, hfil, hwf, hfr⟩ := saveUserInfo_true_spec db uid k v h
  unfold getUserInfo
  have hf1 : findOneOrNone (fun w => w.telegramId == uid)
      (saveUserInfo true db uid k v).1.users = some (some u) := by
    unfold findOneOrNone
    rw [hfil]
  rw [hf1]
  have hf2 : findOneOrNone (fun i => i.userId == u.id && i.key == k)
      (saveUserInfo true db uid k v).1.userInfo
      = some (some { userId := u.id, key := k, value := v }) := by
    unfold findOneOrNone
    rw [show (saveUserInfo true db uid k v).1.userInfo.filter
        (fun i => i.userId == u.id && i.key == k)
        = [{ userId := u.id, key := k, value := v }] from hfr]
  show (match findOneOrNone (fun i : UserInfoRow => i.userId == u.id && i.key == k)
      (saveUserInfo true db uid k v).1.userInfo with
    | some r => r
    | none => none).map (fun r : UserInfoRow => r.value) = some v
  rw [hf2]
  rfl

/-- C7: with key or value missing (falsy), the handler returns the
clarification prompt and leaves the store untouched; with both present,
it delegates to the `save_user_info` upsert and returns the confirmation
echoing key and value verbatim, and (on a well-formed store with a
successful commit) the saved value is then readable for the sender. -/
theorem claim_C7_save_info_handler (ok : Bool) (db : DB) (it : IntentData)
    (uid : Int) :
    ((pyTruthy it.key = false ∨ pyTruthy it.value = false) →
      handleSaveInfo ok db it uid = (db, saveClarifyMsg)) ∧
    (∀ k v, it.key = some k → it.value = some v → k ≠ "" → v ≠ "" →
      handleSaveInfo ok db it uid
        = ((saveUserInfo ok db uid k v).1, saveConfirmMsg k v)) ∧
    (∀ k v, it.key = some k → it.value = some v → k ≠ "" → v ≠ "" → DBWF db →
      (getUserInfo (handleSaveInfo true db it uid).1 uid k).map
        (fun r : UserInfoRow => r.value) = some v) := by
  refine ⟨?_, ?_, ?_⟩
  · intro h
    rcases h with h | h <;> simp [handleSaveInfo, h]
  · intro k v hk hv hk0 hv0
    simp [handleSaveInfo, hk, hv, pyTruthy, hk0, hv0]
  · intro k v hk hv hk0 hv0 hwf
    have h2 : handleSaveInfo true db it uid
        = ((saveUserInfo true db uid k v).1, saveConfirmMsg k v) := by
      simp [handleSaveInfo, hk, hv, pyTruthy, hk0, hv0]
    rw [h2]
    exact getUserInfo_after_save db uid k v hwf

/-- Classification result for the C7 witness with both fields present. -/
def itC7 : IntentData :=
  { intent := some "save_info", key := some "email", value := some "a@b.c",
    targetUsername := none, messageCount := none, responseType := none }

/-- Classification result for the C7 witness with the key missing. -/
def itC7m : IntentData :=
  { intent := some "save_info", key := none, value := some "x",
    targetUsername := none, messageCount := none, responseType := none }

/-- Witness for C7 at concrete classification results. -/
theorem claim_C7_witness :
    handleSaveInfo true DB.emptyDB itC7m 7 = (DB.emptyDB, saveClarifyMsg) ∧
    handleSaveInfo true DB.emptyDB itC7 7
      = ((saveUserInfo true DB.emptyDB 7 "email" "a@b.c").1,
         saveConfirmMsg "email" "a@b.c") ∧
    (getUserInfo (handleSaveInfo true DB.emptyDB itC7 7).1 7 "email").map
      (fun r : UserInfoRow => r.value) = some "a@b.c" :=
  ⟨(claim_C7_save_info_handler true DB.emptyDB itC7m 7).1 (Or.inl rfl),
   (claim_C7_save_info_handler true DB.emptyDB itC7 7).2.1 "email" "a@b.c"
     rfl rfl (by decide) (by decide),
   (claim_C7_save_info_handler true DB.emptyDB itC7 7).2.2 "email" "a@b.c"
     rfl rfl (by decide) (by decide)
     ⟨fun t => by simp [DB.emptyDB], fun u k => by simp [factRows, DB.emptyDB]⟩⟩
